import Mathlib

/-!
Shallow embedding of the core of `calculator.py` (validator and calculation
orchestrator) and proofs about it.

Strings from the Python side are modelled as `List Char`; the three regular
expressions of `validate_expression` are embedded as executable character-list
scans with the same semantics on the character classes they mention.
-/

namespace Calculator

/-- Characters matched by the regex class `[\+\-\*\/]`. -/
def isOpChar (c : Char) : Bool :=
  c == '+' || c == '-' || c == '*' || c == '/'

/-- Codepoint ranges of the characters Python `re` matches for `\s` on `str`
input (Unicode-aware): `\t`-`\r`, `\x1c`-`\x20`, `\x85`, `\xa0`, and the
Unicode space separators. -/
def wsRanges : List (Nat × Nat) :=
  [(0x9, 0xD), (0x1C, 0x20), (0x85, 0x85), (0xA0, 0xA0), (0x1680, 0x1680),
   (0x2000, 0x200A), (0x2028, 0x2029), (0x202F, 0x202F), (0x205F, 0x205F),
   (0x3000, 0x3000)]

/-- Characters matched by the regex class `\s`: Python `re` on `str` patterns
matches all Unicode whitespace, not only the six ASCII whitespace
characters. -/
def isWsChar (c : Char) : Bool :=
  wsRanges.any (fun p => decide (p.1 ≤ c.toNat) && decide (c.toNat ≤ p.2))

/-- Codepoint ranges of the Unicode decimal digits (general category Nd),
the characters Python `re` matches for `\d` on `str` input. -/
def ndRanges : List (Nat × Nat) :=
  [(0x30, 0x39), (0x660, 0x669), (0x6F0, 0x6F9), (0x7C0, 0x7C9),
   (0x966, 0x96F), (0x9E6, 0x9EF), (0xA66, 0xA6F), (0xAE6, 0xAEF),
   (0xB66, 0xB6F), (0xBE6, 0xBEF), (0xC66, 0xC6F), (0xCE6, 0xCEF),
   (0xD66, 0xD6F), (0xDE6, 0xDEF), (0xE50, 0xE59), (0xED0, 0xED9),
   (0xF20, 0xF29), (0x1040, 0x1049), (0x1090, 0x1099), (0x17E0, 0x17E9),
   (0x1810, 0x1819), (0x1946, 0x194F), (0x19D0, 0x19D9), (0x1A80, 0x1A89),
   (0x1A90, 0x1A99), (0x1B50, 0x1B59), (0x1BB0, 0x1BB9), (0x1C40, 0x1C49),
   (0x1C50, 0x1C59), (0xA620, 0xA629), (0xA8D0, 0xA8D9), (0xA900, 0xA909),
   (0xA9D0, 0xA9D9), (0xA9F0, 0xA9F9), (0xAA50, 0xAA59), (0xABF0, 0xABF9),
   (0xFF10, 0xFF19), (0x104A0, 0x104A9), (0x10D30, 0x10D39),
   (0x11066, 0x1106F), (0x110F0, 0x110F9), (0x11136, 0x1113F),
   (0x111D0, 0x111D9), (0x112F0, 0x112F9), (0x11450, 0x11459),
   (0x114D0, 0x114D9), (0x11650, 0x11659), (0x116C0, 0x116C9),
   (0x11730, 0x11739), (0x118E0, 0x118E9), (0x11950, 0x11959),
   (0x11C50, 0x11C59), (0x11D50, 0x11D59), (0x11DA0, 0x11DA9),
   (0x16A60, 0x16A69), (0x16AC0, 0x16AC9), (0x16B50, 0x16B59),
   (0x1D7CE, 0x1D7FF), (0x1E140, 0x1E149), (0x1E2F0, 0x1E2F9),
   (0x1E950, 0x1E959), (0x1FBF0, 0x1FBF9)]

/-- Characters matched by the regex class `\d`: every Unicode decimal digit
(category Nd), not only ASCII `0`-`9`. -/
def isDecimalDigit (c : Char) : Bool :=
  ndRanges.any (fun p => decide (p.1 ≤ c.toNat) && decide (c.toNat ≤ p.2))

/-- Characters matched by the regex class `[\d.]`. -/
def isNumChar (c : Char) : Bool :=
  isDecimalDigit c || c == '.'

/-- Characters matched by the regex class `[\+\-\*\/\(\)]`. -/
def isOpParen (c : Char) : Bool :=
  isOpChar c || c == '(' || c == ')'

/-- Embedding of `re.search(r'[\+\-\*\/]{2,}', expression)`: true iff the
string contains two adjacent operator characters (a run of length at least two
exists iff some adjacent pair exists). -/
def hasRepeatedOp : List Char → Bool
  | c1 :: c2 :: rest => (isOpChar c1 && isOpChar c2) || hasRepeatedOp (c2 :: rest)
  | _ => false

/-- Embedding of the part `\s*0(?![.])` of the division-by-zero regex, anchored
right after a `/`: skip whitespace; succeed iff the first non-whitespace
character is `0` and the character after it (if any) is not `.`. -/
def afterSlash : List Char → Bool
  | [] => false
  | c :: rest =>
    if isWsChar c then afterSlash rest
    else c == '0' && !(rest.head? == some '.')

/-- Embedding of `re.search(r'/\s*0(?![.])', expression)`: some `/` in the
string is followed by optional whitespace and then a `0` not immediately
followed by `.`. -/
def hasDivZero : List Char → Bool
  | [] => false
  | c :: rest => (c == '/' && afterSlash rest) || hasDivZero rest

/-- Helper for `subNum`: the flag records whether the previous character was
part of a digit/dot run, so that a maximal run contributes exactly one `x`
(emitted at the start of the run). -/
def subNumAux : Bool → List Char → List Char
  | _, [] => []
  | inRun, c :: rest =>
    if isNumChar c then
      if inRun then subNumAux true rest else 'x' :: subNumAux true rest
    else c :: subNumAux false rest

/-- Embedding of `re.sub(r'[\d.]+', 'x', expression)`: every maximal run of
digit/dot characters is replaced by a single `x`. -/
def subNum (l : List Char) : List Char :=
  subNumAux false l

/-- Embedding of `re.sub(r'[\+\-\*\/\(\)]', 'x', simplified)`: each operator or
parenthesis character is replaced by `x`. -/
def subOps (l : List Char) : List Char :=
  l.map (fun c => if isOpParen c then 'x' else c)

/-- Embedding of `re.search(r'[^\sx]', simplified)`: some character is neither
whitespace nor the letter `x`. -/
def hasNonWsX (l : List Char) : Bool :=
  l.any (fun c => !(isWsChar c || c == 'x'))

/-- Embedding of `validate_expression` from `calculator.py`. Python returns
`True` on success and a reason string on failure; we model this
`Union[bool, str]` as `Option String` with `none` standing for `True`.
The `except` branch of the source (reason `"Invalid expression format"`) guards
`re.sub` calls with constant, valid patterns on a `str` input, which cannot
raise in Python; the embedding of those pure substitutions accordingly has no
failure case. -/
def validate_expression (expression : List Char) : Option String :=
  if hasRepeatedOp expression then some "Invalid operator sequence"
  else if hasDivZero expression then some "Division by zero"
  else if hasNonWsX (subOps (subNum expression)) then some "Invalid characters in expression"
  else none

/-- JSON values, the shape of what Python `json.loads` can return (numbers are
modelled as integers, which covers every payload appearing in this
development). -/
inductive Json where
  | null : Json
  | bool (b : Bool) : Json
  | num (n : Int) : Json
  | str (s : String) : Json
  | arr (elems : List Json) : Json
  | obj (fields : List (String × Json)) : Json

/-- Whether a JSON value is a mapping containing the given key. -/
def Json.hasKey : Json → String → Bool
  | .obj fields, k => fields.any (fun p => p.1 == k)
  | _, _ => false

/-- Chat message, as the dicts built inline in `process_calculation`. -/
structure Message where
  role : String
  content : String

/-- The request handed to `client.chat.completions.create`: keyword arguments
of the call in `process_calculation`. -/
structure Request where
  model : String
  temperature : Rat
  messages : List Message
  functions : Json
  function_call : Json

/-- The `function_call` object of a response message; the source reads its
`.arguments` attribute, a string to be JSON-parsed. -/
structure FunctionCall where
  arguments : String

/-- Response message; `function_call` is `none` when the service attached no
function call (Python `None`, whose `.arguments` access raises). -/
structure ChoiceMessage where
  function_call : Option FunctionCall

/-- One choice of a completion response. -/
structure Choice where
  message : ChoiceMessage

/-- Completion response: the source reads `response.choices[0]`. -/
structure Response where
  choices : List Choice

/-- The injected external service client: `client.chat.completions.create`
either returns a response or raises an exception, modelled as
`Except String Response` with the string the exception description `str(e)`. -/
def Client : Type :=
  Request → Except String Response

/-- The `system_message` string literal of `process_calculation`. -/
def system_message : String :=
  "You are a precise calculator. When evaluating mathematical expressions:\n1. Always follow standard mathematical order of operations (PEMDAS)\n2. For mixed operations, use the \x27mixed\x27 operation type\n3. Return exact numerical results\n4. Validate all inputs thoroughly"

/-- Embedding of `get_calculator_functions` from `calculator.py`: the declared
`calculate` function schema. -/
def get_calculator_functions : Json :=
  .arr [.obj [
    ("name", .str "calculate"),
    ("description", .str "Calculate the result of a mathematical expression"),
    ("parameters", .obj [
      ("type", .str "object"),
      ("properties", .obj [
        ("expression", .obj [
          ("type", .str "string"),
          ("description", .str "The mathematical expression provided by the user")]),
        ("result", .obj [
          ("type", .str "number"),
          ("description", .str "The calculated result of the expression")]),
        ("operation_type", .obj [
          ("type", .str "string"),
          ("description", .str "The type of mathematical operation performed"),
          ("enum", .arr [.str "addition", .str "subtraction", .str "multiplication",
            .str "division", .str "mixed"])])]),
      ("required", .arr [.str "expression", .str "result", .str "operation_type"])])]]

/-- The argument record of the `client.chat.completions.create` call in
`process_calculation`, assembled from its keyword arguments. -/
def buildRequest (model : String) (temperature : Rat) (expression : String) : Request :=
  { model := model
    temperature := temperature
    messages := [
      { role := "system", content := system_message },
      { role := "user",
        content := "Calculate this expression and provide the result: " ++ expression }]
    functions := get_calculator_functions
    function_call := .obj [("name", .str "calculate")] }

/-- Description string of the `IndexError` raised by `response.choices[0]` on
an empty `choices` list. -/
def indexErrorMsg : String :=
  "list index out of range"

/-- Description string of the `AttributeError` raised by reading `.arguments`
off a `None` `function_call`. -/
def noneArgumentsMsg : String :=
  "\x27NoneType\x27 object has no attribute \x27arguments\x27"

/-- The body of the `try` block of `process_calculation`: call the service,
read `response.choices[0].message.function_call.arguments`, JSON-parse it.
Each fallible step is an `Except` whose error is the description of the Python
exception the step raises; `json_loads` models the external `json.loads`
(returning the parsed value or the description of the raised error). -/
def tryBlock (json_loads : String → Except String Json) (client : Client)
    (expression model : String) (temperature : Rat) : Except String Json :=
  match client (buildRequest model temperature expression) with
  | .error e => .error e
  | .ok response =>
    match response.choices.head? with
    | none => .error indexErrorMsg
    | some choice =>
      match choice.message.function_call with
      | none => .error noneArgumentsMsg
      | some fc => json_loads fc.arguments

/-- The failure mapping `{"error": ..., "expression": ..., "status": "failed"}`
built at both return sites of `process_calculation`. -/
def failureObj (error expression : String) : Json :=
  .obj [("error", .str error), ("expression", .str expression), ("status", .str "failed")]

/-- Embedding of `process_calculation` from `calculator.py`: validate, return
the failure mapping on a validation reason; otherwise run the `try` block and
map a caught exception description to the same failure shape, or return the
parsed result verbatim. -/
def process_calculation (json_loads : String → Except String Json) (client : Client)
    (expression model : String) (temperature : Rat) : Json :=
  match validate_expression expression.data with
  | some reason => failureObj reason expression
  | none =>
    match tryBlock json_loads client expression model temperature with
    | .error e => failureObj e expression
    | .ok result => result

/-- Characters that survive both substitutions of the character-set check as
something other than whitespace or `x`: not digit/dot, not operator or
parenthesis, not whitespace, and not the letter `x` itself. -/
def badChar (c : Char) : Bool :=
  !(isNumChar c || isOpParen c || isWsChar c || c == 'x')

/-- Character set named by the specification for the character-set check,
written from the spec words (digits, `.`, the four operators, parentheses,
whitespace) for comparison with the behaviour of the source embedding; digits
and whitespace are read as the program reads them, i.e. as the Unicode-aware
regex classes `\d` and `\s`. -/
def claimAllowedChar (c : Char) : Bool :=
  isDecimalDigit c || c == '.' || c == '+' || c == '-' || c == '*' || c == '/' ||
    c == '(' || c == ')' || isWsChar c

/-- Arguments string attached by the mocked service in the spec scenario for
`"2 + 2"`. -/
def mockArguments : String :=
  "\x7b\"expression\": \"2 + 2\", \"result\": 4, \"operation_type\": \"addition\"\x7d"

/-- The value `json.loads` produces on `mockArguments`. -/
def mockPayload : Json :=
  .obj [("expression", .str "2 + 2"), ("result", .num 4),
    ("operation_type", .str "addition")]

/-- Arguments string of a service payload that itself carries both a `result`
and an `error` field. -/
def mixedArguments : String :=
  "\x7b\"expression\": \"2 + 2\", \"result\": 4, \"operation_type\": \"addition\", \"error\": \"service-reported problem\"\x7d"

/-- The value `json.loads` produces on `mixedArguments`. -/
def mixedPayload : Json :=
  .obj [("expression", .str "2 + 2"), ("result", .num 4),
    ("operation_type", .str "addition"), ("error", .str "service-reported problem")]

/-- Concrete stand-in for `json.loads`, agreeing with the real parser on the
two argument strings the mocks use and raising the standard parse-error
description on anything else. -/
def mockJsonLoads (s : String) : Except String Json :=
  if s = mockArguments then .ok mockPayload
  else if s = mixedArguments then .ok mixedPayload
  else .error "Expecting value: line 1 column 1 (char 0)"

/-- Response whose single choice carries a function call with the given
arguments string. -/
def mockResponse (arguments : String) : Response :=
  { choices := [{ message := { function_call := some { arguments := arguments } } }] }

/-- Client that always succeeds with `mockResponse arguments`. -/
def mockClient (arguments : String) : Client :=
  fun _ => .ok (mockResponse arguments)

/-- Client that always raises an exception with the given description. -/
def failingClient (msg : String) : Client :=
  fun _ => .error msg

theorem hasNonWsX_subOps_cons (c : Char) (l : List Char) :
    hasNonWsX (subOps (c :: l)) =
      (!(isOpParen c || isWsChar c || c == 'x') || hasNonWsX (subOps l)) := by
  by_cases hop : isOpParen c = true <;>
    simp [subOps, hasNonWsX, List.any_cons, hop]

theorem hasNonWsX_subNumAux (l : List Char) : ∀ b : Bool,
    hasNonWsX (subOps (subNumAux b l)) = l.any badChar := by
  induction l with
  | nil => intro b; rfl
  | cons c rest ih =>
    intro b
    by_cases hc : isNumChar c = true
    · have hbad : badChar c = false := by simp [badChar, hc]
      cases b
      · rw [show subNumAux false (c :: rest) = 'x' :: subNumAux true rest by
          simp [subNumAux, hc]]
        rw [hasNonWsX_subOps_cons, ih true]
        simp [List.any_cons, hbad]
      · rw [show subNumAux true (c :: rest) = subNumAux true rest by
          simp [subNumAux, hc]]
        rw [ih true]
        simp [List.any_cons, hbad]
    · have hbad : badChar c = !(isOpParen c || isWsChar c || c == 'x') := by
        simp [badChar, hc]
      rw [show subNumAux b (c :: rest) = c :: subNumAux false rest by
        simp [subNumAux, hc]]
      rw [hasNonWsX_subOps_cons, ih false]
      simp [List.any_cons, hbad]

/-- The residue test of the character-set check succeeds exactly when some
character of the expression is outside digits, dot, operators, parentheses,
whitespace, and the placeholder letter `x`. -/
theorem hasNonWsX_subs (l : List Char) :
    hasNonWsX (subOps (subNum l)) = l.any badChar :=
  hasNonWsX_subNumAux l false

theorem hasRepeatedOp_append (l : List Char) (a b : Char) (r : List Char)
    (ha : isOpChar a = true) (hb : isOpChar b = true) :
    hasRepeatedOp (l ++ a :: b :: r) = true := by
  induction l with
  | nil => simp [hasRepeatedOp, ha, hb]
  | cons c l ih =>
    cases l with
    | nil => simp_all [hasRepeatedOp]
    | cons d l => simpa [hasRepeatedOp] using Or.inr ih

theorem afterSlash_iff (t : List Char) :
    afterSlash t = true ↔
      ∃ m r, t = m ++ '0' :: r ∧ (∀ c ∈ m, isWsChar c = true) ∧ r.head? ≠ some '.' := by
  induction t with
  | nil =>
    simp only [afterSlash]
    constructor
    · intro h; cases h
    · rintro ⟨m, r, hmr, -, -⟩; cases m <;> simp at hmr
  | cons c rest ih =>
    by_cases hws : isWsChar c = true
    · rw [show afterSlash (c :: rest) = afterSlash rest by simp [afterSlash, hws]]
      rw [ih]
      constructor
      · rintro ⟨m, r, hmr, hm, hr⟩
        exact ⟨c :: m, r, by simp [hmr], by simpa [hws] using hm, hr⟩
      · rintro ⟨m, r, hmr, hm, hr⟩
        cases m with
        | nil =>
          have h1 : c = '0' ∧ rest = r := by simpa using hmr
          exfalso
          rw [h1.1] at hws
          exact absurd hws (by decide)
        | cons m0 m =>
          have h1 : c = m0 ∧ rest = m ++ '0' :: r := by simpa using hmr
          exact ⟨m, r, h1.2, fun d hd => hm d (by simp [hd]), hr⟩
    · rw [show afterSlash (c :: rest) = (c == '0' && !(rest.head? == some '.')) by
        simp [afterSlash, hws]]
      rw [Bool.and_eq_true, beq_iff_eq, Bool.not_eq_true', beq_eq_false_iff_ne]
      constructor
      · rintro ⟨hc, hr⟩
        exact ⟨[], rest, by simp [hc], by simp, hr⟩
      · rintro ⟨m, r, hmr, hm, hr⟩
        cases m with
        | nil =>
          have h1 : c = '0' ∧ rest = r := by simpa using hmr
          exact ⟨h1.1, h1.2 ▸ hr⟩
        | cons m0 m =>
          exfalso
          have h1 : c = m0 ∧ rest = m ++ '0' :: r := by simpa using hmr
          have h2 := hm m0 (by simp)
          rw [← h1.1] at h2
          exact hws h2

theorem hasDivZero_iff (s : List Char) :
    hasDivZero s = true ↔ ∃ l t, s = l ++ '/' :: t ∧ afterSlash t = true := by
  induction s with
  | nil =>
    simp only [hasDivZero]
    constructor
    · intro h; cases h
    · rintro ⟨l, t, hlt, -⟩; cases l <;> simp at hlt
  | cons c rest ih =>
    simp only [hasDivZero, Bool.or_eq_true, Bool.and_eq_true, beq_iff_eq]
    constructor
    · rintro (⟨rfl, h⟩ | h)
      · exact ⟨[], rest, by simp, h⟩
      · obtain ⟨l, t, hlt, ht⟩ := ih.mp h
        exact ⟨c :: l, t, by simp [hlt], ht⟩
    · rintro ⟨l, t, hlt, ht⟩
      cases l with
      | nil =>
        have h1 : c = '/' ∧ rest = t := by simpa using hlt
        exact Or.inl ⟨h1.1, h1.2 ▸ ht⟩
      | cons l0 l =>
        have h1 : c = l0 ∧ rest = l ++ '/' :: t := by simpa using hlt
        exact Or.inr (ih.mpr ⟨l, t, h1.2, ht⟩)

theorem isWsChar_not_op {c : Char} (h : isWsChar c = true) : isOpChar c = false := by
  cases hop : isOpChar c
  · rfl
  · exfalso
    simp only [isOpChar, Bool.or_eq_true, beq_iff_eq] at hop
    rcases hop with ((rfl | rfl) | rfl) | rfl <;> exact absurd h (by decide)

theorem isWsChar_not_slash {c : Char} (h : isWsChar c = true) : (c == '/') = false := by
  cases hs : c == '/'
  · rfl
  · exfalso
    have hc : c = '/' := by simpa using hs
    subst hc
    exact absurd h (by decide)

theorem isWsChar_not_bad {c : Char} (h : isWsChar c = true) : badChar c = false := by
  simp [badChar, h]

theorem hasRepeatedOp_of_all_ws (s : List Char) (h : ∀ c ∈ s, isWsChar c = true) :
    hasRepeatedOp s = false := by
  induction s with
  | nil => rfl
  | cons c rest ih =>
    cases rest with
    | nil => rfl
    | cons d rest' =>
      have hc : isOpChar c = false := isWsChar_not_op (h c (by simp))
      have htail : hasRepeatedOp (d :: rest') = false :=
        ih (fun e he => h e (by simp [he]))
      simp [hasRepeatedOp, hc, htail]

theorem hasDivZero_of_all_ws (s : List Char) (h : ∀ c ∈ s, isWsChar c = true) :
    hasDivZero s = false := by
  induction s with
  | nil => rfl
  | cons c rest ih =>
    have hc : (c == '/') = false := isWsChar_not_slash (h c (by simp))
    have htail : hasDivZero rest = false := ih (fun e he => h e (by simp [he]))
    simp [hasDivZero, hc, htail]

theorem claimAllowedChar_eq (c : Char) :
    claimAllowedChar c = (isNumChar c || isOpParen c || isWsChar c) := by
  simp [claimAllowedChar, isNumChar, isOpParen, isOpChar, Bool.or_assoc]

theorem badChar_eq (c : Char) :
    badChar c = !(claimAllowedChar c || c == 'x') := by
  simp [badChar, claimAllowedChar_eq, Bool.or_assoc]

theorem hasDivZero_pattern (s : List Char) :
    hasDivZero s = true ↔
      ∃ l m r, s = l ++ '/' :: (m ++ '0' :: r) ∧ (∀ c ∈ m, isWsChar c = true) ∧
        r.head? ≠ some '.' := by
  rw [hasDivZero_iff]
  constructor
  · rintro ⟨l, t, rfl, ht⟩
    obtain ⟨m, r, rfl, hm, hr⟩ := (afterSlash_iff t).mp ht
    exact ⟨l, m, r, rfl, hm, hr⟩
  · rintro ⟨l, m, r, rfl, hm, hr⟩
    exact ⟨l, m ++ '0' :: r, rfl, (afterSlash_iff _).mpr ⟨m, r, rfl, hm, hr⟩⟩

theorem validate_dz_iff (s : List Char) (h1 : hasRepeatedOp s = false) :
    validate_expression s = some "Division by zero" ↔ hasDivZero s = true := by
  unfold validate_expression
  rw [if_neg (by simp [h1])]
  cases h2 : hasDivZero s
  · rw [if_neg (by simp)]
    constructor
    · intro h
      exfalso
      by_cases h3 : hasNonWsX (subOps (subNum s)) = true
      · rw [if_pos h3] at h
        exact absurd (Option.some.inj h) (by decide)
      · rw [if_neg h3] at h
        exact Option.noConfusion h
    · intro h; exact absurd h (by simp)
  · rw [if_pos rfl]
    simp

/-- C5: every expression containing two adjacent characters from `{+,-,*,/}`
is rejected with reason "Invalid operator sequence", and this check runs first:
the same reason is produced even when the expression would also trip the
division-by-zero check (`"1//0"`) or the character-set check (`"2 ++ abc"`).
The four doubled-operator substrings named by the spec are all rejected. -/
theorem repeated_operator_rejected_first :
    (∀ (l : List Char) (a b : Char) (r : List Char),
      isOpChar a = true → isOpChar b = true →
      validate_expression (l ++ a :: b :: r) = some "Invalid operator sequence")
    ∧ validate_expression "++".data = some "Invalid operator sequence"
    ∧ validate_expression "**".data = some "Invalid operator sequence"
    ∧ validate_expression "//".data = some "Invalid operator sequence"
    ∧ validate_expression "--".data = some "Invalid operator sequence"
    ∧ validate_expression "1//0".data = some "Invalid operator sequence"
    ∧ validate_expression "2 ++ abc".data = some "Invalid operator sequence" := by
  refine ⟨?_, by decide, by decide, by decide, by decide, by decide, by decide⟩
  intro l a b r ha hb
  simp [validate_expression, hasRepeatedOp_append l a b r ha hb]

/-- Witness for C5 at the spec scenario `"2 ++ 2"`. -/
theorem repeated_operator_rejected_first_witness :
    validate_expression "2 ++ 2".data = some "Invalid operator sequence" := by
  have h := repeated_operator_rejected_first.1 ['2', ' '] '+' '+' [' ', '2']
    (by decide) (by decide)
  exact h

/-- C4: among expressions passing the repeated-operator check, validation
fails with "Division by zero" exactly when a `/` is followed by optional
whitespace (the full Unicode-aware `\s` class) and then a `0` not immediately
followed by `.`; the spec's four concrete cases behave as stated (the
detection is syntactic: `1/0.0` and `1/0.5` pass), and the whitespace between
`/` and `0` may be non-ASCII, e.g. a no-break space. -/
theorem div_zero_syntactic_iff :
    (∀ s : List Char, hasRepeatedOp s = false →
      (validate_expression s = some "Division by zero" ↔
        ∃ l m r, s = l ++ '/' :: (m ++ '0' :: r) ∧ (∀ c ∈ m, isWsChar c = true) ∧
          r.head? ≠ some '.'))
    ∧ validate_expression "1/0".data = some "Division by zero"
    ∧ validate_expression "1 / 0 + 1".data = some "Division by zero"
    ∧ validate_expression "/\u00A00".data = some "Division by zero"
    ∧ validate_expression "1/0.0".data = none
    ∧ validate_expression "1/0.5".data = none := by
  refine ⟨?_, by decide, by decide, by decide, by decide, by decide⟩
  intro s h1
  exact (validate_dz_iff s h1).trans (hasDivZero_pattern s)

/-- Witness for C4 at `"1 / 0"`. -/
theorem div_zero_syntactic_iff_witness :
    validate_expression "1 / 0".data = some "Division by zero" := by
  have h := (div_zero_syntactic_iff.1 "1 / 0".data (by decide)).mpr
    ⟨['1', ' '], [' '], [], by decide, by decide, by decide⟩
  exact h

/-- C8: `validate_expression` is a total function (by construction in this
embedding, as its regex substitutions cannot raise) and its result is success
or one of exactly the three fixed reason strings; the source's
"Invalid expression format" branch has no reachable counterpart. -/
theorem validate_expression_total_three_reasons (s : List Char) :
    validate_expression s = none ∨
    validate_expression s = some "Invalid operator sequence" ∨
    validate_expression s = some "Division by zero" ∨
    validate_expression s = some "Invalid characters in expression" := by
  by_cases h1 : hasRepeatedOp s = true
  · simp [validate_expression, h1]
  · by_cases h2 : hasDivZero s = true
    · simp [validate_expression, h1, h2]
    · by_cases h3 : hasNonWsX (subOps (subNum s)) = true <;>
        simp [validate_expression, h1, h2, h3]

/-- C9: the empty string passes validation, and so does every string made only
of whitespace characters. -/
theorem empty_and_whitespace_pass :
    validate_expression [] = none ∧
    ∀ s : List Char, (∀ c ∈ s, isWsChar c = true) → validate_expression s = none := by
  refine ⟨by decide, ?_⟩
  intro s h
  have h1 := hasRepeatedOp_of_all_ws s h
  have h2 := hasDivZero_of_all_ws s h
  have h3 : s.any badChar = false := by
    simp only [List.any_eq_false]
    intro c hc
    simp [isWsChar_not_bad (h c hc)]
  simp [validate_expression, h1, h2, hasNonWsX_subs, h3]

/-- Witness for C9 on a concrete whitespace-only string. -/
theorem empty_and_whitespace_pass_witness :
    validate_expression " \t ".data = none :=
  empty_and_whitespace_pass.2 " \t ".data (by decide)

/-- C3 counterexample: the expression `"x"` contains a letter (a character
outside digits, `.`, the four operators, parentheses, and whitespace) and
passes the repeated-operator and division-by-zero checks, yet
`validate_expression` accepts it instead of returning
"Invalid characters in expression": the check substitutes the literal letter
`x` as its placeholder, so a lone `x` survives. -/
theorem invalid_chars_claim_cex :
    claimAllowedChar 'x' = false ∧ 'x'.isAlpha = true ∧
    hasRepeatedOp "x".data = false ∧ hasDivZero "x".data = false ∧
    validate_expression "x".data = none ∧
    validate_expression "x".data ≠ some "Invalid characters in expression" :=
  ⟨by decide, by decide, by decide, by decide, by decide, by decide⟩

/-- C3 amended: every expression passing the first two checks that contains a
character outside digits, `.`, the four operators, parentheses, whitespace,
and other than the placeholder letter `x`, is rejected with
"Invalid characters in expression" (so every letter except `x` triggers the
rejection). Digits and whitespace are the Unicode-aware regex classes the
program uses, so a lone no-break space (U+00A0) or Arabic-Indic digit three
(U+0663) is inside the allowed set and passes validation. -/
theorem invalid_chars_rejected_amended :
    (∀ s : List Char, hasRepeatedOp s = false → hasDivZero s = false →
      (∃ c ∈ s, claimAllowedChar c = false ∧ c ≠ 'x') →
      validate_expression s = some "Invalid characters in expression")
    ∧ validate_expression "\u00A0".data = none
    ∧ validate_expression "\u0663".data = none := by
  refine ⟨?_, by decide, by decide⟩
  intro s h1 h2 h3
  obtain ⟨c, hc, hca, hcx⟩ := h3
  have hbad : badChar c = true := by
    rw [badChar_eq]
    simp [hca, hcx]
  have hany : s.any badChar = true := List.any_eq_true.mpr ⟨c, hc, hbad⟩
  simp [validate_expression, h1, h2, hasNonWsX_subs, hany]

/-- Witness for amended C3 at the spec scenario `"2 + abc"`. -/
theorem invalid_chars_rejected_amended_witness :
    validate_expression "2 + abc".data = some "Invalid characters in expression" :=
  invalid_chars_rejected_amended.1 "2 + abc".data (by decide) (by decide)
    ⟨'a', by decide, by decide, by decide⟩

/-- C10 counterexample: `"1/0"` consists solely of digits and operators (all
inside the character set C10 names), yet it does not pass validation, because
the earlier division-by-zero check rejects it; the claim as stated omits the
first two checks. -/
theorem placeholder_claim_cex :
    (∀ c ∈ "1/0".data, (claimAllowedChar c || c == 'x') = true) ∧
    validate_expression "1/0".data = some "Division by zero" ∧
    validate_expression "1/0".data ≠ none :=
  ⟨by decide, by decide, by decide⟩

/-- C10 amended: every expression built solely from digits, `.`, the four
operators, parentheses, whitespace, and the letter `x` that also passes the
repeated-operator and division-by-zero checks passes validation; in
particular the lone letter `x` passes and thus reaches the external
service. -/
theorem placeholder_x_passes_amended :
    (∀ s : List Char, (∀ c ∈ s, (claimAllowedChar c || c == 'x') = true) →
      hasRepeatedOp s = false → hasDivZero s = false →
      validate_expression s = none)
    ∧ validate_expression "x".data = none := by
  refine ⟨?_, by decide⟩
  intro s hall h1 h2
  have h3 : s.any badChar = false := by
    simp only [List.any_eq_false]
    intro c hc
    rw [badChar_eq]
    simp [hall c hc]
  simp [validate_expression, h1, h2, hasNonWsX_subs, h3]

/-- Witness for amended C10 on an expression mixing the allowed characters
with the placeholder letter. -/
theorem placeholder_x_passes_amended_witness :
    validate_expression "(1 + x) * 2".data = none :=
  placeholder_x_passes_amended.1 "(1 + x) * 2".data (by decide) (by decide) (by decide)

theorem tryBlock_ok_inv (json_loads : String → Except String Json) (client : Client)
    (expression model : String) (temperature : Rat) (j : Json)
    (h : tryBlock json_loads client expression model temperature = .ok j) :
    ∃ s, json_loads s = .ok j := by
  unfold tryBlock at h
  split at h
  · cases h
  · split at h
    · cases h
    · split at h
      · cases h
      · next fc heq => exact ⟨fc.arguments, h⟩

/-- C1: no failure of the service call, extraction, or parse steps escapes
`process_calculation`; each of the four failure modes (client raises with
description `msg`; response has no choices; the message carries no function
call; the arguments string does not parse) yields exactly the mapping
`{error, expression, status: "failed"}` whose error value is the caught
exception description. The component is total by construction in this
embedding: every path of `process_calculation` returns a mapping. -/
theorem process_calculation_wraps_service_failure :
    (∀ (jl : String → Except String Json) (client : Client) (e m : String)
      (t : Rat) (msg : String), validate_expression e.data = none →
      client (buildRequest m t e) = .error msg →
      process_calculation jl client e m t = failureObj msg e)
    ∧ (∀ (jl : String → Except String Json) (client : Client) (e m : String)
      (t : Rat) (resp : Response), validate_expression e.data = none →
      client (buildRequest m t e) = .ok resp → resp.choices = [] →
      process_calculation jl client e m t = failureObj indexErrorMsg e)
    ∧ (∀ (jl : String → Except String Json) (client : Client) (e m : String)
      (t : Rat) (resp : Response) (choice : Choice),
      validate_expression e.data = none →
      client (buildRequest m t e) = .ok resp →
      resp.choices.head? = some choice →
      choice.message.function_call = none →
      process_calculation jl client e m t = failureObj noneArgumentsMsg e)
    ∧ (∀ (jl : String → Except String Json) (client : Client) (e m : String)
      (t : Rat) (resp : Response) (choice : Choice) (fc : FunctionCall)
      (msg : String), validate_expression e.data = none →
      client (buildRequest m t e) = .ok resp →
      resp.choices.head? = some choice →
      choice.message.function_call = some fc →
      jl fc.arguments = .error msg →
      process_calculation jl client e m t = failureObj msg e) := by
  refine ⟨?_, ?_, ?_, ?_⟩
  · intro jl client e m t msg hv hc
    simp [process_calculation, tryBlock, hv, hc]
  · intro jl client e m t resp hv hc hch
    simp [process_calculation, tryBlock, hv, hc, hch]
  · intro jl client e m t resp choice hv hc hch hfc
    simp [process_calculation, tryBlock, hv, hc, hch, hfc]
  · intro jl client e m t resp choice fc msg hv hc hch hfc hj
    simp [process_calculation, tryBlock, hv, hc, hch, hfc, hj]

/-- Witness for C1: a client raising an exception with description
"Connection error." yields the wrapped failure mapping. -/
theorem process_calculation_wraps_service_failure_witness :
    process_calculation mockJsonLoads (failingClient "Connection error.")
      "2 + 2" "gpt-3.5-turbo" 0 = failureObj "Connection error." "2 + 2" :=
  process_calculation_wraps_service_failure.1 mockJsonLoads
    (failingClient "Connection error.") "2 + 2" "gpt-3.5-turbo" 0
    "Connection error." (by decide) rfl

/-- C2: when validation fails with a reason, `process_calculation` returns
exactly `{error: reason, expression, status: "failed"}`, and because the
equation holds uniformly in the client (second conjunct: any two clients and
parsers give the same result), the external service client is never
consulted. -/
theorem process_calculation_invalid_short_circuits :
    (∀ (jl : String → Except String Json) (client : Client) (e m : String)
      (t : Rat) (reason : String), validate_expression e.data = some reason →
      process_calculation jl client e m t = failureObj reason e)
    ∧ (∀ (jl jl2 : String → Except String Json) (client client2 : Client)
      (e m m2 : String) (t t2 : Rat) (reason : String),
      validate_expression e.data = some reason →
      process_calculation jl client e m t = process_calculation jl2 client2 e m2 t2) := by
  constructor
  · intro jl client e m t reason hv
    simp [process_calculation, hv]
  · intro jl jl2 client client2 e m m2 t t2 reason hv
    simp [process_calculation, hv]

/-- Witness for C2 at the spec scenario `"2 ++ 2"`. -/
theorem process_calculation_invalid_short_circuits_witness :
    process_calculation mockJsonLoads (failingClient "never called")
      "2 ++ 2" "gpt-3.5-turbo" 0 =
      failureObj "Invalid operator sequence" "2 ++ 2" :=
  process_calculation_invalid_short_circuits.1 mockJsonLoads
    (failingClient "never called") "2 ++ 2" "gpt-3.5-turbo" 0
    "Invalid operator sequence" (by decide)

/-- C6: when validation passes, the service call succeeds, the first choice
carries a function call, and its arguments parse to a value `j`, then
`process_calculation` returns exactly `j` — unchanged, with no status key
added, no keys removed, and no check of the numeric result. -/
theorem process_calculation_success_verbatim
    (jl : String → Except String Json) (client : Client) (e m : String)
    (t : Rat) (resp : Response) (choice : Choice) (fc : FunctionCall) (j : Json)
    (hv : validate_expression e.data = none)
    (hc : client (buildRequest m t e) = .ok resp)
    (hch : resp.choices.head? = some choice)
    (hfc : choice.message.function_call = some fc)
    (hj : jl fc.arguments = .ok j) :
    process_calculation jl client e m t = j := by
  simp [process_calculation, tryBlock, hv, hc, hch, hfc, hj]

/-- Witness for C6 at the spec scenario: the mocked service answers `"2 + 2"`
with the three-field payload, which is returned verbatim. -/
theorem process_calculation_success_verbatim_witness :
    process_calculation mockJsonLoads (mockClient mockArguments) "2 + 2"
      "gpt-3.5-turbo" 0 = mockPayload :=
  process_calculation_success_verbatim mockJsonLoads (mockClient mockArguments)
    "2 + 2" "gpt-3.5-turbo" 0 (mockResponse mockArguments)
    { message := { function_call := some { arguments := mockArguments } } }
    { arguments := mockArguments } mockPayload
    (by decide) rfl rfl rfl (by simp [mockJsonLoads])

/-- C7 counterexample: a service whose function-call arguments already carry
both `result` and `error` fields makes `process_calculation` return a mapping
containing both keys, because the parsed payload is returned verbatim with no
filtering. -/
theorem mixed_shape_cex :
    (process_calculation mockJsonLoads (mockClient mixedArguments) "2 + 2"
      "gpt-3.5-turbo" 0).hasKey "result" = true ∧
    (process_calculation mockJsonLoads (mockClient mixedArguments) "2 + 2"
      "gpt-3.5-turbo" 0).hasKey "error" = true := by
  constructor <;> rfl

/-- C7 amended: the failure shape never contains a `result` key, and the
success path returns the service payload verbatim; hence for every behaviour
whose parsed payloads do not themselves contain an `error` key, the returned
mapping never contains both `result` and `error`. -/
theorem no_mixed_shape_amended
    (jl : String → Except String Json) (client : Client) (e m : String)
    (t : Rat)
    (hjl : ∀ s j, jl s = .ok j → j.hasKey "error" = false) :
    ¬((process_calculation jl client e m t).hasKey "result" = true ∧
      (process_calculation jl client e m t).hasKey "error" = true) := by
  rintro ⟨hres, herr⟩
  unfold process_calculation at hres herr
  cases hv : validate_expression e.data with
  | some reason =>
    rw [hv] at hres
    simp [failureObj, Json.hasKey] at hres
  | none =>
    rw [hv] at hres herr
    cases htb : tryBlock jl client e m t with
    | error d =>
      rw [htb] at hres
      simp [failureObj, Json.hasKey] at hres
    | ok j =>
      rw [htb] at hres herr
      obtain ⟨s, hs⟩ := tryBlock_ok_inv jl client e m t j htb
      rw [hjl s j hs] at herr
      exact Bool.noConfusion herr

/-- Witness for amended C7 with a parser that only ever yields the three-field
success payload. -/
theorem no_mixed_shape_amended_witness :
    ¬((process_calculation (fun _ => .ok mockPayload)
        (mockClient mockArguments) "2 + 2" "gpt-3.5-turbo" 0).hasKey "result" = true ∧
      (process_calculation (fun _ => .ok mockPayload)
        (mockClient mockArguments) "2 + 2" "gpt-3.5-turbo" 0).hasKey "error" = true) :=
  no_mixed_shape_amended (fun _ => .ok mockPayload) (mockClient mockArguments)
    "2 + 2" "gpt-3.5-turbo" 0
    (fun s j h => by
      rw [show j = mockPayload from (Except.ok.inj h).symm]
      rfl)


end Calculator
